import Mathlib

/-!
Shallow embedding of the n8n-mcp-server RAG tool handlers:

* `GenerateWorkflow` embeds `src/tools/rag/generate-workflow.ts`
  (`generateWorkflowStructure`, `inferTrigger`, `getTriggerNodeType`,
  `getIntegrationNodeType`, `generateImplementationSteps`).
* `GetInsights` embeds `src/tools/rag/get-insights.ts`
  (`suggestApproach`, `identifyKeyComponents`, `getConsiderations`).
* `CompleteWorkflow` embeds the `generate_complete_workflow` tool module
  (`buildSystemPrompt`, `generateImplementationSteps`).

JavaScript strings are modelled as Lean `String`, JS arrays as `List`,
optional object fields as `Option`, and a JS object used as a string-keyed
map as an association list `List (String × α)` with insertion-order
semantics (`setKey` overwrites in place, otherwise appends).
-/

/-- JS `s.includes(pat)` on strings: `pat` occurs as a contiguous substring. -/
def jsIncludes (s pat : String) : Bool :=
  decide (pat.data <:+: s.data)

/-- JS `s.toLowerCase()`, restricted to the ASCII case mapping (the
Unicode mapping agrees with it on ASCII strings; see `isAsciiString`). -/
def jsToLower (s : String) : String :=
  ⟨s.data.map Char.toLower⟩

/-- JS `a || b` for an optional string `a`: the empty string is falsy. -/
def jsOrString (a : Option String) (b : String) : String :=
  match a with
  | some s => if s = "" then b else s
  | none => b

/-- JS `o?.includes(pat)` for an optional string field: `undefined` is falsy. -/
def optIncludes (o : Option String) (pat : String) : Bool :=
  match o with
  | some s => jsIncludes s pat
  | none => false

/-- A JavaScript value as read from a property of a plain object literal:
an own string property, an inherited `Object.prototype` member (a function
or object — truthy, and never a string), or `undefined`. -/
inductive JSValue where
  | str : String → JSValue
  | protoMember : String → JSValue
  | undefined : JSValue
deriving DecidableEq, Repr

/-- The property names every plain object literal inherits from
`Object.prototype`. -/
def objectProtoProps : List String :=
  ["constructor", "hasOwnProperty", "isPrototypeOf", "propertyIsEnumerable",
   "toLocaleString", "toString", "valueOf",
   "__defineGetter__", "__defineSetter__", "__lookupGetter__",
   "__lookupSetter__", "__proto__"]

/-- JS property read `obj[k]` on a plain object literal whose own
properties are the string map `own`: an own property wins, otherwise the
`Object.prototype` chain is consulted, otherwise the read is `undefined`. -/
def jsGetProp (own : List (String × String)) (k : String) : JSValue :=
  match own.lookup k with
  | some v => JSValue.str v
  | none =>
    if k ∈ objectProtoProps then JSValue.protoMember k
    else JSValue.undefined

/-- JS `v || d` on a property-read result: `undefined` and the empty
string are falsy and yield the default; an inherited prototype member is a
truthy object and is returned as is. -/
def jsOrValue (v : JSValue) (d : String) : JSValue :=
  match v with
  | JSValue.str s => if s = "" then JSValue.str d else JSValue.str s
  | JSValue.protoMember n => JSValue.protoMember n
  | JSValue.undefined => JSValue.str d

/-- Every character of `s` is ASCII. On ASCII strings `jsToLower` agrees
with the JS `toLowerCase` (Unicode case mapping never moves an ASCII
character outside A–Z → a–z). -/
def isAsciiString (s : String) : Bool :=
  s.data.all (fun c => c.toNat < 128)

/-- Assignment `m[k] = v` on a JS object modelled as an association list:
an existing key is updated in place, a new key is appended. -/
def setKey {α : Type} (m : List (String × α)) (k : String) (v : α) :
    List (String × α) :=
  if m.any (fun p => p.1 == k) then
    m.map (fun p => if p.1 == k then (k, v) else p)
  else
    m ++ [(k, v)]

namespace GenerateWorkflow

/-- One entry of a `connections[...].main[...]` array in the generated
workflow: `{ node, type: 'main', index: 0 }`. -/
structure ConnectionRef where
  node : String
  type : String
  index : Nat
deriving DecidableEq, Repr

/-- The value stored at `connections[previousNodeId]`. -/
structure ConnectionValue where
  main : List (List ConnectionRef)
deriving DecidableEq, Repr

/-- The value `{ main: [[{ node: target, type: 'main', index: 0 }]] }`. -/
def mkConnVal (target : String) : ConnectionValue :=
  ⟨[[⟨target, "main", 0⟩]]⟩

/-- A node pushed onto the generated `nodes` array. `parameters` is a JSON
object modelled as a key/value list. -/
structure WNode where
  id : String
  type : String
  name : String
  parameters : List (String × String)
  position : Nat × Nat
deriving DecidableEq, Repr

/-- The `settings` object of the generated structure. -/
structure Settings where
  executionOrder : String
deriving DecidableEq, Repr

/-- The object returned by `generateWorkflowStructure`. -/
structure Workflow where
  nodes : List WNode
  connections : List (String × ConnectionValue)
  settings : Settings
deriving DecidableEq, Repr

/-- The `requirements` argument (only the fields the structure generator
reads: `trigger` and `integrations`). -/
structure Requirements where
  trigger : Option String
  integrations : Option (List String)
deriving Repr

/-- One entry of `context.suggested_nodes`. -/
structure SuggestedNode where
  type : String
  name : String
  parameters : Option (List (String × String))
deriving Repr

/-- The RAG `context` object (the fields the generator reads). -/
structure Context where
  patterns : Option (List String)
  suggested_nodes : Option (List SuggestedNode)
deriving Repr

/-- `inferTrigger(context)`. -/
def inferTrigger (context : Context) : String :=
  let patterns := context.patterns.getD []
  if patterns.contains "microservice" then "webhook"
  else if patterns.contains "scheduled" then "schedule"
  else "manual"

/-- `getTriggerNodeType(trigger)`: exact lookup in the trigger map, with the
manual trigger as fallback. This is the own-property abstraction of the
object read, which coincides with the JavaScript behaviour
(`getTriggerNodeTypeJS`) whenever the key is not an `Object.prototype`
name. -/
def getTriggerNodeType (trigger : String) : String :=
  let triggerMap : List (String × String) :=
    [("webhook", "n8n-nodes-base.webhook"),
     ("schedule", "n8n-nodes-base.scheduleTrigger"),
     ("manual", "n8n-nodes-base.manualTrigger"),
     ("chat", "@n8n/n8n-nodes-langchain.chatTrigger")]
  (triggerMap.lookup trigger).getD "n8n-nodes-base.manualTrigger"

/-- `getIntegrationNodeType(integration)`: lowercased lookup in the
integration map, with the HTTP request node as fallback. Own-property
abstraction of the object read; coincides with `getIntegrationNodeTypeJS`
whenever the lowercased key is not an `Object.prototype` name. -/
def getIntegrationNodeType (integration : String) : String :=
  let integrationMap : List (String × String) :=
    [("slack", "n8n-nodes-base.slack"),
     ("telegram", "n8n-nodes-base.telegram"),
     ("email", "n8n-nodes-base.emailSend"),
     ("openai", "@n8n/n8n-nodes-langchain.lmChatOpenAi"),
     ("supabase", "@n8n/n8n-nodes-langchain.supabaseVectorStore"),
     ("http", "n8n-nodes-base.httpRequest")]
  (integrationMap.lookup (jsToLower integration)).getD "n8n-nodes-base.httpRequest"

/-- `getTriggerNodeType(trigger)` at the JavaScript level:
`triggerMap[trigger] || 'n8n-nodes-base.manualTrigger'` where `triggerMap`
is a plain object literal, so the read also sees the `Object.prototype`
chain. -/
def getTriggerNodeTypeJS (trigger : String) : JSValue :=
  jsOrValue
    (jsGetProp
      [("webhook", "n8n-nodes-base.webhook"),
       ("schedule", "n8n-nodes-base.scheduleTrigger"),
       ("manual", "n8n-nodes-base.manualTrigger"),
       ("chat", "@n8n/n8n-nodes-langchain.chatTrigger")] trigger)
    "n8n-nodes-base.manualTrigger"

/-- `getIntegrationNodeType(integration)` at the JavaScript level:
`integrationMap[integration.toLowerCase()] || 'n8n-nodes-base.httpRequest'`
on a plain object literal, prototype chain included. -/
def getIntegrationNodeTypeJS (integration : String) : JSValue :=
  jsOrValue
    (jsGetProp
      [("slack", "n8n-nodes-base.slack"),
       ("telegram", "n8n-nodes-base.telegram"),
       ("email", "n8n-nodes-base.emailSend"),
       ("openai", "@n8n/n8n-nodes-langchain.lmChatOpenAi"),
       ("supabase", "@n8n/n8n-nodes-langchain.supabaseVectorStore"),
       ("http", "n8n-nodes-base.httpRequest")] (jsToLower integration))
    "n8n-nodes-base.httpRequest"

/-- The mutable state threaded through `generateWorkflowStructure`:
the `nodes` array, the `connections` object, `previousNodeId` and
`nodeCount`. -/
structure GenState where
  nodes : List WNode
  connections : List (String × ConnectionValue)
  previousNodeId : String
  nodeCount : Nat
deriving Repr

/-- The common tail of each node-adding block: push the node, link it from
`previousNodeId`, advance `previousNodeId`, bump `nodeCount`. -/
def pushNode (s : GenState) (n : WNode) : GenState :=
  { nodes := s.nodes ++ [n],
    connections := setKey s.connections s.previousNodeId (mkConnVal n.id),
    previousNodeId := n.id,
    nodeCount := s.nodeCount + 1 }

/-- The AI-agent block of `generateWorkflowStructure`. -/
def addAgentNode (s : GenState) : GenState :=
  let c := s.nodeCount + 1
  pushNode s
    { id := "agent_" ++ Nat.repr c,
      type := "@n8n/n8n-nodes-langchain.agent",
      name := "AI Agent",
      parameters := [],
      position := (450, 300) }

/-- The per-integration block of `generateWorkflowStructure`. -/
def addIntegrationNode (s : GenState) (integration : String) : GenState :=
  let c := s.nodeCount + 1
  pushNode s
    { id := "node_" ++ Nat.repr c,
      type := getIntegrationNodeType integration,
      name := integration ++ " Integration",
      parameters := [],
      position := (250 + c * 200, 300) }

/-- The per-suggested-node block of `generateWorkflowStructure`. -/
def addSuggestedNode (s : GenState) (suggested : SuggestedNode) : GenState :=
  let c := s.nodeCount + 1
  pushNode s
    { id := "node_" ++ Nat.repr c,
      type := suggested.type,
      name := suggested.name,
      parameters := suggested.parameters.getD [],
      position := (250 + c * 200, 300) }

/-- `generateWorkflowStructure(description, requirements, context)`. -/
def generateWorkflowStructure (description : String)
    (requirements : Requirements) (context : Context) : Workflow :=
  let triggerType := jsOrString requirements.trigger (inferTrigger context)
  let triggerId := "trigger_1"
  let s0 : GenState :=
    { nodes :=
        [{ id := triggerId,
           type := getTriggerNodeType triggerType,
           name := triggerType ++ " Trigger",
           parameters := [],
           position := (250, 300) }],
      connections := [],
      previousNodeId := triggerId,
      nodeCount := 1 }
  let s1 :=
    if (context.patterns.getD []).contains "ai_agent"
        || jsIncludes (jsToLower description) "ai"
        || jsIncludes (jsToLower description) "chat" then
      addAgentNode s0
    else s0
  let s2 := (requirements.integrations.getD []).foldl addIntegrationNode s1
  let suggestedNodes :=
    match context.suggested_nodes with
    | some l => l.take 3
    | none => []
  let s3 := suggestedNodes.foldl addSuggestedNode s2
  { nodes := s3.nodes,
    connections := s3.connections,
    settings := { executionOrder := "v1" } }

/-- `generateImplementationSteps(structure, context)` of
generate-workflow.ts: numbered step strings, with a conditional AI-agent
step. -/
def generateImplementationSteps (struct : Workflow) : List String :=
  let steps : List String :=
    ["1. Create a new workflow in n8n",
     "2. Add the trigger node and configure its settings"]
  let steps :=
    if struct.nodes.any (fun n => jsIncludes n.type "agent") then
      steps ++ ["3. Configure the AI agent with appropriate model and tools"]
    else steps
  let steps := steps ++
    [Nat.repr (steps.length + 1) ++ ". Connect all nodes as shown in the structure"]
  let steps := steps ++
    [Nat.repr (steps.length + 1) ++ ". Configure credentials for each integration"]
  let steps := steps ++
    [Nat.repr (steps.length + 1) ++ ". Test the workflow with sample data"]
  let steps := steps ++
    [Nat.repr (steps.length + 1) ++ ". Add error handling and logging nodes"]
  steps

end GenerateWorkflow

namespace GetInsights

/-- One entry of `insights.node_suggestions` (the fields the formatting
helpers read; `type` is an optional field, accessed with `?.`). -/
structure NodeSuggestion where
  type : Option String
  name : String
deriving Repr

/-- One entry of `insights.workflow_matches` (only `name` is read by
`suggestApproach`). -/
structure WorkflowMatch where
  name : String
deriving Repr

/-- The raw insights object returned by the RAG client; each field may be
absent. -/
structure Insights where
  workflow_matches : Option (List WorkflowMatch)
  node_suggestions : Option (List NodeSuggestion)
  recommended_patterns : Option (List String)
  complexity_estimate : Option String
deriving Repr

/-- `suggestApproach(insights)`: first-match if/else-if chain over the
recommended patterns, then the top workflow match, then a generic
fallback. -/
def suggestApproach (insights : Insights) : String :=
  let patterns := insights.recommended_patterns.getD []
  let topWorkflow := (insights.workflow_matches.getD []).head?
  if patterns.contains "microservice" then
    "Use a microservice pattern with webhook triggers for modular design."
  else if patterns.contains "ai_agent" then
    "Implement an AI agent with tool integration for intelligent automation."
  else if patterns.contains "rag" then
    "Use RAG pattern for context-aware responses with vector database integration."
  else
    match topWorkflow with
    | some w =>
        "Consider adapting the \"" ++ w.name ++ "\" workflow as a starting point."
    | none => "Start with a simple webhook trigger and build incrementally."

/-- `nodes.some(n => n.type?.includes('trigger') || n.type?.includes('webhook'))`. -/
def hasTriggerNode (nodes : List NodeSuggestion) : Bool :=
  nodes.any (fun n => optIncludes n.type "trigger" || optIncludes n.type "webhook")

/-- `nodes.some(n => n.type?.includes('ai') || n.type?.includes('agent') ||
n.type?.includes('openai'))`. -/
def hasAINode (nodes : List NodeSuggestion) : Bool :=
  nodes.any (fun n =>
    optIncludes n.type "ai" || optIncludes n.type "agent"
      || optIncludes n.type "openai")

/-- `nodes.some(n => n.type?.includes('supabase') || n.type?.includes('postgres'))`. -/
def hasDatabaseNode (nodes : List NodeSuggestion) : Bool :=
  nodes.any (fun n =>
    optIncludes n.type "supabase" || optIncludes n.type "postgres")

/-- `nodes.some(n => n.type?.includes('telegram') || n.type?.includes('slack') ||
n.type?.includes('email'))`. -/
def hasMessagingNode (nodes : List NodeSuggestion) : Bool :=
  nodes.any (fun n =>
    optIncludes n.type "telegram" || optIncludes n.type "slack"
      || optIncludes n.type "email")

/-- `identifyKeyComponents(insights)`: the trigger component is added when
no trigger-like node was suggested; AI, database and messaging components
are added on presence; then one entry per suggested node (up to 3). -/
def identifyKeyComponents (insights : Insights) : List String :=
  let nodes := insights.node_suggestions.getD []
  (if hasTriggerNode nodes = false then ["Webhook or manual trigger"] else []) ++
  (if hasAINode nodes then ["AI/LLM integration"] else []) ++
  (if hasDatabaseNode nodes then ["Database storage"] else []) ++
  (if hasMessagingNode nodes then ["Messaging integration"] else []) ++
  (nodes.take 3).map (fun node => node.name ++ " node")

/-- `getConsiderations(insights)`: conditional notes for advanced
complexity, the ai_agent pattern and database nodes, then two fixed
notes. -/
def getConsiderations (insights : Insights) : List String :=
  (if insights.complexity_estimate = some "advanced" then
    ["This is a complex workflow that may require multiple sub-workflows"]
   else []) ++
  (if (insights.recommended_patterns.getD []).contains "ai_agent" then
    ["Configure AI agent with appropriate tools and memory management"]
   else []) ++
  (if (insights.node_suggestions.getD []).any
      (fun n => optIncludes n.type "database") then
    ["Set up database credentials and schema before implementation"]
   else []) ++
  ["Consider error handling and retry logic for reliability",
   "Implement logging for debugging and monitoring"]

end GetInsights

namespace CompleteWorkflow

/-- `generateImplementationSteps(features, outputFormat, useTaskManager)` of
the `generate_complete_workflow` module. -/
def generateImplementationSteps (features : List String)
    (outputFormat : String) (useTaskManager : Bool) : List String :=
  if outputFormat = "microservices" then
    ["Create main orchestrator workflow with webhook trigger",
     "Design separate microservice workflows for each feature"] ++
    features.map
      (fun f => "Implement " ++ f ++ " microservice with webhook trigger and response") ++
    (if useTaskManager then
      ["Integrate Task Manager for workflow orchestration",
       "Add task creation and monitoring capabilities"]
     else []) ++
    ["Connect microservices via HTTP requests",
     "Add centralized logging and error handling"]
  else
    ["Create main workflow with appropriate trigger"] ++
    features.map
      (fun f => "Add " ++ f ++ " integration nodes and configuration") ++
    ["Implement error handling and logging",
     "Add documentation via Sticky Notes",
     "Test all connections and data flow"]

/-- One entry of the relevant-workflow search results used by the prompt
builder: `name`, `description` and a numeric `similarity` score. -/
structure RelevantWorkflow where
  name : String
  description : String
  similarity : ℚ
deriving Repr

/-- One entry of the relevant-node search results. -/
structure RelevantNode where
  name : String
  type : String
  description : String
deriving Repr

/-- One loaded example workflow file (only `name` is rendered). -/
structure ExampleEntry where
  name : String
deriving Repr

/-- The context object passed to `buildSystemPrompt`. -/
structure PromptContext where
  description : String
  features : List String
  relevantWorkflows : List RelevantWorkflow
  relevantNodes : List RelevantNode
  demoExamples : List ExampleEntry
  taskManagerExamples : List ExampleEntry
  useTaskManager : Bool
  outputFormat : String
  complexity : String
  claudeMdContent : String
deriving Repr

/-- JS `Math.round`: round half toward positive infinity. -/
def jsRound (q : ℚ) : ℤ := ⌊q + 1 / 2⌋

/-- How JS renders a boolean inside a template literal. -/
def jsBoolString (b : Bool) : String :=
  if b then "true" else "false"

/-- `buildSystemPrompt(context)`: the full template literal, trimmed. -/
def buildSystemPrompt (context : PromptContext) : String :=
  ("\n# n8n Workflow Generation System Prompt\n\n"
    ++ context.claudeMdContent
    ++ "\n\n## Current Task\n\nGenerate a "
    ++ context.complexity
    ++ " complexity n8n workflow implementation with the following requirements:\n\n**Description**: "
    ++ context.description
    ++ "\n**Required Features**: "
    ++ String.intercalate ", " context.features
    ++ "\n**Output Format**: "
    ++ context.outputFormat
    ++ "\n**Use Task Manager**: "
    ++ jsBoolString context.useTaskManager
    ++ "\n\n## Relevant Context\n\n### Similar Workflows Found:\n"
    ++ String.intercalate "\n"
        ((context.relevantWorkflows.take 3).map (fun w =>
          "\n- **" ++ w.name ++ "** ("
            ++ toString (jsRound (w.similarity * 100)) ++ "% match)\n  "
            ++ w.description.take 200 ++ "...\n"))
    ++ "\n\n### Recommended Nodes:\n"
    ++ String.intercalate "\n"
        (context.relevantNodes.map (fun n =>
          "\n- **" ++ n.name ++ "** (" ++ n.type ++ ")\n  "
            ++ n.description ++ "\n"))
    ++ "\n\n"
    ++ (if context.outputFormat = "microservices" then
          "\n### Microservice Pattern Examples:\n"
            ++ String.intercalate "\n"
                (context.demoExamples.map (fun e =>
                  "\n#### " ++ e.name
                    ++ "\n- Webhook triggers for inter-service communication\n- Modular design with single responsibility\n- Clear input/output documentation\n"))
            ++ "\n"
        else "")
    ++ "\n\n"
    ++ (if context.useTaskManager then
          "\n### Task Manager Integration:\n"
            ++ String.intercalate "\n"
                (context.taskManagerExamples.map (fun e =>
                  "\n#### " ++ e.name
                    ++ "\n- Task creation and monitoring\n- Status updates via webhooks\n- Centralized task orchestration\n"))
            ++ "\n"
        else "")
    ++ "\n\n## Implementation Requirements\n\n1. **Architecture**:\n   - "
    ++ (if context.outputFormat = "microservices" then
          "Create separate workflows for each major function"
        else "Create a single comprehensive workflow")
    ++ "\n   - "
    ++ (if context.useTaskManager then
          "Integrate with Task Manager for orchestration"
        else "Use direct workflow connections")
    ++ "\n   - Implement proper error handling at each step\n   - Add comprehensive logging nodes\n\n2. **Features to Implement**:\n"
    ++ String.intercalate "\n"
        (context.features.map (fun f =>
          "   - " ++ f ++ ": Full integration with all necessary nodes"))
    ++ "\n\n3. **Best Practices**:\n   - Use Sticky Notes for documentation\n   - Implement proper credential references\n   - Add error handling and logging\n   - Follow the patterns from similar workflows\n   - Ensure all nodes are properly connected\n\n4. **Output Requirements**:\n   - Generate complete, valid JSON workflow(s)\n   - Include all necessary node configurations\n   - Ensure proper connections between nodes\n   - Add helpful Sticky Notes for documentation\n\nGenerate the complete workflow implementation(s) now.\n").trim

end CompleteWorkflow

/-! ### Decimal representation: `Nat.repr` is injective

The generated node ids embed `nodeCount` via `Nat.repr`; uniqueness of ids
reduces to injectivity of the decimal representation. -/

/-- The decimal digit list of `n`, most significant digit first. -/
def decRep (n : Nat) : List Char :=
  if h : n < 10 then [Nat.digitChar n]
  else decRep (n / 10) ++ [Nat.digitChar (n % 10)]
decreasing_by exact Nat.div_lt_self (by omega) (by omega)

namespace GenerateWorkflow

/-- The id list of a generation state, in node order. -/
def idsOf (s : GenState) : List String := s.nodes.map (fun n => n.id)

/-- A non-trigger node id: an agent or generic id whose numeric suffix lies
between 2 and the current node count. -/
def GoodId (c : Nat) (x : String) : Prop :=
  ∃ k, 2 ≤ k ∧ k ≤ c ∧
    (x = "agent_" ++ Nat.repr k ∨ x = "node_" ++ Nat.repr k)

/-- The loop invariant of `generateWorkflowStructure`: the id list starts at
`trigger_1`, ids are distinct, `previousNodeId` is the last id, the
connection object is exactly the chain of consecutive id pairs, and every
non-trigger id carries a suffix bounded by `nodeCount`. -/
def Inv (s : GenState) : Prop :=
  s.nodeCount = (idsOf s).length ∧
  (∃ rest, idsOf s = "trigger_1" :: rest) ∧
  (idsOf s).Nodup ∧
  (idsOf s).getLast? = some s.previousNodeId ∧
  s.connections =
    ((idsOf s).zip (idsOf s).tail).map (fun p => (p.1, mkConnVal p.2)) ∧
  (∀ x ∈ (idsOf s).tail, GoodId s.nodeCount x)

/-- The node ids of a generated workflow, in order. -/
def workflowIds (W : Workflow) : List String := W.nodes.map (fun n => n.id)

end GenerateWorkflow

/-! ## Theorems -/

theorem decRep_lt {n : Nat} (h : n < 10) : decRep n = [Nat.digitChar n] := by
  conv_lhs => rw [decRep]
  simp [h]

theorem decRep_ge {n : Nat} (h : ¬ n < 10) :
    decRep n = decRep (n / 10) ++ [Nat.digitChar (n % 10)] := by
  conv_lhs => rw [decRep]
  simp [h]

theorem toDigitsCore_eq_decRep :
    ∀ (fuel n : Nat) (ds : List Char), n < fuel →
      Nat.toDigitsCore 10 fuel n ds = decRep n ++ ds := by
  intro fuel
  induction fuel with
  | zero => intro n ds h; omega
  | succ fuel ih =>
    intro n ds h
    rw [Nat.toDigitsCore]
    by_cases h10 : n < 10
    · have hdiv : n / 10 = 0 := Nat.div_eq_of_lt h10
      have hmod : n % 10 = n := Nat.mod_eq_of_lt h10
      simp only [hdiv, hmod, if_pos]
      rw [decRep_lt h10]
      simp
    · have hdiv : ¬ n / 10 = 0 := by omega
      simp only [hdiv, if_neg, not_false_iff]
      have hlt : n / 10 < fuel := by
        have : n / 10 < n := Nat.div_lt_self (by omega) (by omega)
        omega
      rw [ih (n / 10) (Nat.digitChar (n % 10) :: ds) hlt]
      rw [decRep_ge h10]
      simp

theorem repr_eq_decRep (n : Nat) : Nat.repr n = (decRep n).asString := by
  show (Nat.toDigits 10 n).asString = (decRep n).asString
  rw [Nat.toDigits, toDigitsCore_eq_decRep (n + 1) n [] (Nat.lt_succ_self n)]
  simp

theorem digitChar_inj_lt :
    ∀ a, a < 10 → ∀ b, b < 10 → Nat.digitChar a = Nat.digitChar b → a = b := by
  decide

theorem decRep_ne_nil (n : Nat) : decRep n ≠ [] := by
  by_cases h : n < 10
  · rw [decRep_lt h]; simp
  · rw [decRep_ge h]; simp

theorem decRep_inj (m : Nat) : ∀ n, decRep m = decRep n → m = n := by
  induction m using Nat.strong_induction_on with
  | _ m ih =>
    intro n h
    by_cases hm : m < 10 <;> by_cases hn : n < 10
    · rw [decRep_lt hm, decRep_lt hn] at h
      exact digitChar_inj_lt m hm n hn (by simpa using h)
    · rw [decRep_lt hm, decRep_ge hn] at h
      have hlen := congrArg List.length h
      simp at hlen
      exact absurd hlen (decRep_ne_nil (n / 10))
    · rw [decRep_ge hm, decRep_lt hn] at h
      have hlen := congrArg List.length h
      simp at hlen
      exact absurd hlen.symm (by simpa using decRep_ne_nil (m / 10))
    · rw [decRep_ge hm, decRep_ge hn] at h
      obtain ⟨h1, h2⟩ := List.append_inj' h (by simp)
      have hdiv : m / 10 = n / 10 :=
        ih (m / 10) (Nat.div_lt_self (by omega) (by omega)) (n / 10) h1
      have hmod : m % 10 = n % 10 :=
        digitChar_inj_lt (m % 10) (Nat.mod_lt m (by omega)) (n % 10)
          (Nat.mod_lt n (by omega)) (by simpa using h2)
      omega

theorem natRepr_inj {m n : Nat} (h : Nat.repr m = Nat.repr n) : m = n := by
  rw [repr_eq_decRep, repr_eq_decRep] at h
  exact decRep_inj m n (congrArg String.data h)

/-! ### Small string facts used for id disjointness -/

theorem string_eq_of_data_eq {s t : String} (h : s.data = t.data) : s = t := by
  cases s
  cases t
  exact congrArg String.mk h

theorem string_append_cancel_left {p s t : String} (h : p ++ s = p ++ t) :
    s = t := by
  apply string_eq_of_data_eq
  have hd : p.data ++ s.data = p.data ++ t.data := by
    simpa using congrArg String.data h
  exact List.append_cancel_left hd

theorem string_head_ne {s t : String} (h : s.data.head? ≠ t.data.head?) :
    s ≠ t :=
  fun he => h (he ▸ rfl)

theorem data_head_append (p r : String) {c : Char} {l : List Char}
    (hp : p.data = c :: l) : (p ++ r).data.head? = some c := by
  rw [String.data_append, hp]
  rfl

/-! ### List helpers for the chain invariant -/

theorem zip_tail_map_fst {α : Type} :
    ∀ l : List α, (l.zip l.tail).map Prod.fst = l.dropLast
  | [] => rfl
  | [_] => rfl
  | a :: b :: t => by
      have ih : ((b :: t).zip t).map Prod.fst = (b :: t).dropLast := by
        simpa using zip_tail_map_fst (b :: t)
      simp only [List.tail_cons, List.zip_cons_cons, List.map_cons,
        List.dropLast_cons₂]
      exact congrArg (a :: ·) ih

theorem zip_tail_map_snd {α : Type} :
    ∀ l : List α, (l.zip l.tail).map Prod.snd = l.tail
  | [] => rfl
  | [_] => rfl
  | a :: b :: t => by
      have ih : ((b :: t).zip t).map Prod.snd = t := by
        simpa using zip_tail_map_snd (b :: t)
      simp only [List.tail_cons, List.zip_cons_cons, List.map_cons]
      exact congrArg (b :: ·) ih

theorem zip_tail_concat {α : Type} :
    ∀ (l : List α) (b a : α), l.getLast? = some b →
      (l ++ [a]).zip ((l ++ [a]).tail) = l.zip l.tail ++ [(b, a)]
  | [], _, _, h => by simp at h
  | [x], b, a, h => by
      simp at h
      subst h
      rfl
  | x :: y :: t, b, a, h => by
      have h' : (y :: t).getLast? = some b := by
        simpa using h
      have ih := zip_tail_concat (y :: t) b a h'
      simp only [List.cons_append, List.tail_cons] at ih ⊢
      simp only [List.zip_cons_cons, List.cons_append] at ih ⊢
      rw [ih]

theorem nodup_concat_of {α : Type} {l : List α} {a : α}
    (h : l.Nodup) (ha : a ∉ l) : (l ++ [a]).Nodup := by
  rw [List.nodup_append]
  exact ⟨h, List.nodup_singleton a,
    fun x hx hxa => ha ((List.mem_singleton.mp hxa) ▸ hx)⟩

theorem setKey_of_forall_ne {α : Type} {m : List (String × α)} {k : String}
    {v : α} (h : ∀ p ∈ m, p.1 ≠ k) : setKey m k v = m ++ [(k, v)] := by
  unfold setKey
  rw [if_neg]
  intro hc
  simp only [List.any_eq_true, beq_iff_eq] at hc
  obtain ⟨p, hp, hpk⟩ := hc
  exact h p hp hpk

theorem sum_map_eq_length {α : Type} :
    ∀ (l : List α) (f : α → Nat), (∀ x ∈ l, f x = 1) →
      (l.map f).sum = l.length
  | [], _, _ => rfl
  | a :: t, f, h => by
      simp only [List.map_cons, List.sum_cons, List.length_cons]
      rw [h a (by simp), sum_map_eq_length t f (fun x hx => h x (by simp [hx]))]
      omega

theorem keyFilter_length_le_one {α : Type} :
    ∀ (m : List (String × α)) (k : String), (m.map Prod.fst).Nodup →
      (m.filter (fun e => e.1 == k)).length ≤ 1
  | [], _, _ => by simp
  | (a, v) :: t, k, h => by
      simp only [List.map_cons, List.nodup_cons] at h
      obtain ⟨hna, hnd⟩ := h
      by_cases hak : a = k
      · subst hak
        have ht : t.filter (fun e => e.1 == a) = [] := by
          rw [List.filter_eq_nil_iff]
          intro p hp
          simp only [beq_iff_eq]
          intro hpa
          exact hna (by rw [← hpa]; exact List.mem_map_of_mem Prod.fst hp)
        simp [List.filter_cons, ht]
      · have := keyFilter_length_le_one t k hnd
        simp only [List.filter_cons]
        simp only [beq_iff_eq, hak, if_false]
        exact this

theorem filter_snd_eq {l : List (String × String)}
    (hnd : (l.map Prod.snd).Nodup) {a b : String} (hab : (a, b) ∈ l) :
    l.filter (fun p => p.2 == b) = [(a, b)] := by
  induction l with
  | nil => simp at hab
  | cons x t ih =>
    simp only [List.map_cons, List.nodup_cons] at hnd
    obtain ⟨hnx, hnd⟩ := hnd
    rcases List.mem_cons.mp hab with hx | hmem
    · subst hx
      have ht : t.filter (fun p => p.2 == b) = [] := by
        rw [List.filter_eq_nil_iff]
        intro p hp
        simp only [beq_iff_eq]
        intro hpb
        apply hnx
        show b ∈ t.map Prod.snd
        rw [← hpb]
        exact List.mem_map_of_mem Prod.snd hp
      simp [List.filter_cons, ht]
    · have hb : b ∈ t.map Prod.snd := List.mem_map_of_mem Prod.snd hmem
      have hxb : x.2 ≠ b := fun he => hnx (by rw [he]; exact hb)
      rw [List.filter_cons, if_neg (by simpa using hxb)]
      exact ih hnd hmem

/-! ### Disjointness of the generated node ids -/

theorem agent_id_ne_trigger (j : Nat) :
    "agent_" ++ Nat.repr j ≠ "trigger_1" :=
  string_head_ne (by rw [data_head_append "agent_" (Nat.repr j) rfl]; decide)

theorem node_id_ne_trigger (j : Nat) :
    "node_" ++ Nat.repr j ≠ "trigger_1" :=
  string_head_ne (by rw [data_head_append "node_" (Nat.repr j) rfl]; decide)

theorem agent_id_ne_node_id (j k : Nat) :
    "agent_" ++ Nat.repr j ≠ "node_" ++ Nat.repr k :=
  string_head_ne (by
    rw [data_head_append "agent_" (Nat.repr j) rfl,
      data_head_append "node_" (Nat.repr k) rfl]
    decide)

theorem agent_id_inj {j k : Nat}
    (h : "agent_" ++ Nat.repr j = "agent_" ++ Nat.repr k) : j = k :=
  natRepr_inj (string_append_cancel_left h)

theorem node_id_inj {j k : Nat}
    (h : "node_" ++ Nat.repr j = "node_" ++ Nat.repr k) : j = k :=
  natRepr_inj (string_append_cancel_left h)

namespace GenerateWorkflow

theorem goodId_ne_trigger {c : Nat} {x : String} (h : GoodId c x) :
    x ≠ "trigger_1" := by
  obtain ⟨k, _, _, hx | hx⟩ := h <;> subst hx
  · exact agent_id_ne_trigger k
  · exact node_id_ne_trigger k

theorem goodId_not_new {c : Nat} {x : String} (h : GoodId c x) {j : Nat}
    (hj : c < j) :
    x ≠ "agent_" ++ Nat.repr j ∧ x ≠ "node_" ++ Nat.repr j := by
  obtain ⟨k, _, hkc, hx | hx⟩ := h <;> subst hx <;> constructor
  · intro he
    exact absurd (agent_id_inj he) (by omega)
  · exact agent_id_ne_node_id k j
  · exact fun he => agent_id_ne_node_id j k he.symm
  · intro he
    exact absurd (node_id_inj he) (by omega)

theorem idsOf_pushNode (s : GenState) (n : WNode) :
    idsOf (pushNode s n) = idsOf s ++ [n.id] := by
  simp [idsOf, pushNode]

theorem pushNode_inv {s : GenState} {n : WNode} (hs : Inv s)
    (hid : n.id = "agent_" ++ Nat.repr (s.nodeCount + 1) ∨
           n.id = "node_" ++ Nat.repr (s.nodeCount + 1)) :
    Inv (pushNode s n) := by
  obtain ⟨hcount, ⟨rest, hhead⟩, hnodup, hlast, hconn, hgood⟩ := hs
  have htail : (idsOf s).tail = rest := by rw [hhead]; rfl
  have hlen1 : 1 ≤ (idsOf s).length := by rw [hhead]; simp
  -- the new id differs from every id already present
  have hnew : n.id ∉ idsOf s := by
    intro hmem
    rw [hhead] at hmem
    rcases List.mem_cons.mp hmem with he | hmem
    · rcases hid with hid | hid <;> rw [hid] at he
      · exact agent_id_ne_trigger _ he
      · exact node_id_ne_trigger _ he
    · have hg : GoodId s.nodeCount n.id := hgood n.id (htail ▸ hmem)
      obtain ⟨hne1, hne2⟩ := goodId_not_new hg (Nat.lt_succ_self s.nodeCount)
      rcases hid with hid | hid
      · exact hne1 hid
      · exact hne2 hid
  refine ⟨?_, ?_, ?_, ?_, ?_, ?_⟩
  · rw [idsOf_pushNode]
    simp [pushNode, hcount]
  · exact ⟨rest ++ [n.id], by rw [idsOf_pushNode, hhead]; simp⟩
  · rw [idsOf_pushNode]
    exact nodup_concat_of hnodup hnew
  · rw [idsOf_pushNode]
    exact List.getLast?_concat _
  · show setKey s.connections s.previousNodeId (mkConnVal n.id) = _
    have hkeys : s.connections.map Prod.fst = (idsOf s).dropLast := by
      rw [hconn, List.map_map]
      exact zip_tail_map_fst (idsOf s)
    have hsplit : (idsOf s).dropLast ++ [s.previousNodeId] = idsOf s :=
      List.dropLast_append_getLast? s.previousNodeId hlast
    have hprev_not : s.previousNodeId ∉ (idsOf s).dropLast := by
      intro hmem
      have hnd : ((idsOf s).dropLast ++ [s.previousNodeId]).Nodup := by
        rw [hsplit]; exact hnodup
      rw [List.nodup_append] at hnd
      exact hnd.2.2 hmem (by simp)
    have hne : ∀ p ∈ s.connections, p.1 ≠ s.previousNodeId := by
      intro p hp he
      apply hprev_not
      rw [← he, ← hkeys]
      exact List.mem_map_of_mem Prod.fst hp
    rw [setKey_of_forall_ne hne, hconn, idsOf_pushNode,
      zip_tail_concat (idsOf s) s.previousNodeId n.id hlast]
    simp
  · rw [idsOf_pushNode, hhead]
    intro x hx
    simp only [List.cons_append, List.tail_cons] at hx
    have hc2 : 1 ≤ s.nodeCount := by omega
    rcases List.mem_append.mp hx with hx | hx
    · obtain ⟨k, h2, hk, hform⟩ := hgood x (htail ▸ hx)
      exact ⟨k, h2, by simp [pushNode]; omega, hform⟩
    · have hx : x = n.id := List.mem_singleton.mp hx
      subst hx
      exact ⟨s.nodeCount + 1, by omega, by simp [pushNode], by
        rcases hid with hid | hid
        · exact Or.inl hid
        · exact Or.inr hid⟩

theorem addAgentNode_inv {s : GenState} (hs : Inv s) :
    Inv (addAgentNode s) :=
  pushNode_inv hs (Or.inl rfl)

theorem addIntegrationNode_inv {s : GenState} (hs : Inv s)
    (integration : String) : Inv (addIntegrationNode s integration) :=
  pushNode_inv hs (Or.inr rfl)

theorem addSuggestedNode_inv {s : GenState} (hs : Inv s)
    (suggested : SuggestedNode) : Inv (addSuggestedNode s suggested) :=
  pushNode_inv hs (Or.inr rfl)

theorem foldl_addIntegrationNode_inv (l : List String) :
    ∀ s : GenState, Inv s → Inv (l.foldl addIntegrationNode s) := by
  induction l with
  | nil => exact fun s h => h
  | cons a t ih =>
    intro s h
    rw [List.foldl_cons]
    exact ih _ (addIntegrationNode_inv h a)

theorem foldl_addSuggestedNode_inv (l : List SuggestedNode) :
    ∀ s : GenState, Inv s → Inv (l.foldl addSuggestedNode s) := by
  induction l with
  | nil => exact fun s h => h
  | cons a t ih =>
    intro s h
    rw [List.foldl_cons]
    exact ih _ (addSuggestedNode_inv h a)

theorem init_inv (n : WNode) (hid : n.id = "trigger_1") :
    Inv { nodes := [n], connections := [],
          previousNodeId := "trigger_1", nodeCount := 1 } := by
  refine ⟨by simp [idsOf], ⟨[], by simp [idsOf, hid]⟩, by simp [idsOf],
    by simp [idsOf, hid], by simp [idsOf], by simp [idsOf]⟩

/-- The final state of `generateWorkflowStructure` satisfies the chain
invariant. -/
theorem generateWorkflowStructure_inv (description : String)
    (requirements : Requirements) (context : Context) :
    ∃ s : GenState, Inv s ∧
      (generateWorkflowStructure description requirements context).nodes =
        s.nodes ∧
      (generateWorkflowStructure description requirements context).connections
        = s.connections := by
  unfold generateWorkflowStructure
  refine ⟨_, ?_, rfl, rfl⟩
  apply foldl_addSuggestedNode_inv
  apply foldl_addIntegrationNode_inv
  split
  · exact addAgentNode_inv (init_inv _ rfl)
  · exact init_inv _ rfl

theorem mem_zip_tail {α : Type} (l : List α) (i : Nat) (h : i + 1 < l.length) :
    (l.get ⟨i, Nat.lt_of_succ_lt h⟩, l.get ⟨i + 1, h⟩) ∈ l.zip l.tail := by
  have hlen : i < (l.zip l.tail).length := by
    rw [List.length_zip, List.length_tail]
    omega
  have hget : (l.zip l.tail).get ⟨i, hlen⟩ =
      (l.get ⟨i, Nat.lt_of_succ_lt h⟩, l.get ⟨i + 1, h⟩) := by
    rw [List.get_zip]
    simp [List.get_eq_getElem, List.getElem_tail]
  rw [← hget]
  exact List.get_mem _ _ _

/-- All the single-path facts that follow from the chain shape of the
connection object. -/
theorem chain_properties (ids : List String)
    (conns : List (String × ConnectionValue))
    (hhead : ∃ rest, ids = "trigger_1" :: rest)
    (hnodup : ids.Nodup)
    (hconn : conns = (ids.zip ids.tail).map (fun p => (p.1, mkConnVal p.2))) :
    ids.count "trigger_1" = 1 ∧
    (∀ e ∈ conns, ∀ g ∈ e.2.main, ∀ r ∈ g, r.node ∈ ids) ∧
    (∀ src, ((conns.filter (fun e => e.1 == src)).map
        (fun e => (e.2.main.map List.length).sum)).sum ≤ 1) ∧
    (∀ i, ∀ h : i + 1 < ids.length,
      conns.filter (fun e => e.2.main.any (fun g => g.any (fun r =>
          r.node == ids.get ⟨i + 1, h⟩)))
        = [(ids.get ⟨i, Nat.lt_of_succ_lt h⟩,
            mkConnVal (ids.get ⟨i + 1, h⟩))]) := by
  subst hconn
  obtain ⟨rest, hhead⟩ := hhead
  refine ⟨?_, ?_, ?_, ?_⟩
  · rw [hhead]
    rw [List.count_cons_self]
    have hnm : "trigger_1" ∉ rest := (List.nodup_cons.mp (hhead ▸ hnodup)).1
    rw [List.count_eq_zero.mpr hnm]
  · intro e he g hg r hr
    obtain ⟨p, hp, rfl⟩ := List.mem_map.mp he
    simp only [mkConnVal, List.mem_singleton] at hg
    subst hg
    simp only [List.mem_singleton] at hr
    subst hr
    exact List.mem_of_mem_tail (List.of_mem_zip hp).2
  · intro src
    have h1 : ∀ e ∈ (((ids.zip ids.tail).map
        (fun p => (p.1, mkConnVal p.2))).filter (fun e => e.1 == src)),
        (e.2.main.map List.length).sum = 1 := by
      intro e he
      obtain ⟨p, _, rfl⟩ := List.mem_map.mp (List.mem_of_mem_filter he)
      simp [mkConnVal]
    rw [sum_map_eq_length _ _ h1]
    apply keyFilter_length_le_one
    rw [List.map_map]
    have hfst := zip_tail_map_fst ids
    exact hfst ▸ ((List.dropLast_sublist ids).nodup hnodup)
  · intro i h
    have hsnd : ((ids.zip ids.tail).map Prod.snd).Nodup := by
      rw [zip_tail_map_snd]
      exact (List.tail_sublist ids).nodup hnodup
    have hmem := mem_zip_tail ids i h
    have hfix : ∀ p ∈ ids.zip ids.tail,
        ((fun e => e.2.main.any (fun g => g.any (fun r =>
            r.node == ids.get ⟨i + 1, h⟩)))
          ∘ (fun p => (p.1, mkConnVal p.2))) p
          = (p.2 == ids.get ⟨i + 1, h⟩) := by
      intro p _
      simp [mkConnVal, Function.comp]
    rw [List.filter_map, List.filter_congr hfix,
      filter_snd_eq hsnd hmem]
    rfl

/-- C2: for every description, requirements (any list of integrations) and
context (any suggested nodes, of which at most 3 are used), the generated
workflow has exactly one node with id `trigger_1`, pairwise distinct node
ids, a connection object that is exactly the chain of consecutive id pairs,
all connection targets among the node ids, out-degree at most 1 per source,
and each non-trigger node receiving exactly one incoming edge, from the
node placed immediately before it: the graph is a single simple path. -/
theorem generateWorkflow_single_path (description : String)
    (requirements : Requirements) (context : Context) :
    (workflowIds
        (generateWorkflowStructure description requirements context)).count
        "trigger_1" = 1 ∧
    (workflowIds (generateWorkflowStructure description requirements
        context)).Nodup ∧
    (generateWorkflowStructure description requirements context).connections
      = ((workflowIds (generateWorkflowStructure description requirements
            context)).zip
          (workflowIds (generateWorkflowStructure description requirements
            context)).tail).map (fun p => (p.1, mkConnVal p.2)) ∧
    (∀ e ∈ (generateWorkflowStructure description requirements
        context).connections, ∀ g ∈ e.2.main, ∀ r ∈ g,
      r.node ∈ workflowIds (generateWorkflowStructure description
        requirements context)) ∧
    (∀ src, (((generateWorkflowStructure description requirements
        context).connections.filter (fun e => e.1 == src)).map
        (fun e => (e.2.main.map List.length).sum)).sum ≤ 1) ∧
    (∀ i, ∀ h : i + 1 < (workflowIds (generateWorkflowStructure description
        requirements context)).length,
      (generateWorkflowStructure description requirements
          context).connections.filter
          (fun e => e.2.main.any (fun g => g.any (fun r =>
            r.node == (workflowIds (generateWorkflowStructure description
              requirements context)).get ⟨i + 1, h⟩)))
        = [((workflowIds (generateWorkflowStructure description requirements
              context)).get ⟨i, Nat.lt_of_succ_lt h⟩,
            mkConnVal ((workflowIds (generateWorkflowStructure description
              requirements context)).get ⟨i + 1, h⟩))]) := by
  obtain ⟨s, hInv, hn, hc⟩ :=
    generateWorkflowStructure_inv description requirements context
  obtain ⟨hcount, hhead, hnodup, hlast, hconn, hgood⟩ := hInv
  have hids : workflowIds
      (generateWorkflowStructure description requirements context)
      = idsOf s := by
    rw [workflowIds, hn]
    rfl
  have hhead' : ∃ rest, workflowIds (generateWorkflowStructure description
      requirements context) = "trigger_1" :: rest := by
    rw [hids]
    exact hhead
  have hnodup' : (workflowIds (generateWorkflowStructure description
      requirements context)).Nodup := by
    rw [hids]
    exact hnodup
  have hconn' : (generateWorkflowStructure description requirements
      context).connections
      = ((workflowIds (generateWorkflowStructure description requirements
          context)).zip
        (workflowIds (generateWorkflowStructure description requirements
          context)).tail).map (fun p => (p.1, mkConnVal p.2)) := by
    rw [hids, hc]
    exact hconn
  obtain ⟨p1, p2, p3, p4⟩ :=
    chain_properties _ _ hhead' hnodup' hconn'
  exact ⟨p1, hnodup', hconn', p2, p3, p4⟩

end GenerateWorkflow

/-! ## Claim theorems -/

/-- C1: for description "AI chatbot with memory", requirements with the
single integration "slack" and context with the "ai_agent" pattern, the
graph builder returns exactly the nodes `trigger_1` (manual trigger),
`agent_2` (AI agent) and `node_3` (slack integration) in that order, with
connections `trigger_1 → agent_2 → node_3`. -/
theorem generateWorkflow_ai_chatbot_slack_example :
    GenerateWorkflow.generateWorkflowStructure "AI chatbot with memory"
      { trigger := none, integrations := some ["slack"] }
      { patterns := some ["ai_agent"], suggested_nodes := none } =
    { nodes :=
        [{ id := "trigger_1",
           type := "n8n-nodes-base.manualTrigger",
           name := "manual Trigger",
           parameters := [],
           position := (250, 300) },
         { id := "agent_2",
           type := "@n8n/n8n-nodes-langchain.agent",
           name := "AI Agent",
           parameters := [],
           position := (450, 300) },
         { id := "node_3",
           type := "n8n-nodes-base.slack",
           name := "slack Integration",
           parameters := [],
           position := (850, 300) }],
      connections :=
        [("trigger_1", GenerateWorkflow.mkConnVal "agent_2"),
         ("agent_2", GenerateWorkflow.mkConnVal "node_3")],
      settings := { executionOrder := "v1" } } := by
  decide

/-- C3 counterexample: with features `["slack", "telegram"]`, output format
`microservices` and the task manager enabled, the step generator does not
return 7 steps (it returns 8: the claim misses the
"Design separate microservice workflows" step). -/
theorem completeSteps_micro_tm_length_ne_seven :
    (CompleteWorkflow.generateImplementationSteps ["slack", "telegram"]
      "microservices" true).length ≠ 7 := by
  decide

/-- C3 (amended): with features `["slack", "telegram"]`, output format
`microservices` and the task manager enabled, the step generator returns
exactly 8 steps in order: the orchestrator-creation step, the
design-separate-microservices step, one microservice step per feature in
input order, the two task-manager steps, then the two closing steps. -/
theorem completeSteps_micro_tm_eight_steps :
    CompleteWorkflow.generateImplementationSteps ["slack", "telegram"]
      "microservices" true =
      ["Create main orchestrator workflow with webhook trigger",
       "Design separate microservice workflows for each feature",
       "Implement slack microservice with webhook trigger and response",
       "Implement telegram microservice with webhook trigger and response",
       "Integrate Task Manager for workflow orchestration",
       "Add task creation and monitoring capabilities",
       "Connect microservices via HTTP requests",
       "Add centralized logging and error handling"] := by
  decide

/-- C4 counterexample: with no features, output format `single` and the
task manager disabled, the step generator does not return only the three
fixed closing steps: a trigger-creation step comes first. -/
theorem completeSteps_single_empty_ne_closing_only :
    CompleteWorkflow.generateImplementationSteps [] "single" false ≠
      ["Implement error handling and logging",
       "Add documentation via Sticky Notes",
       "Test all connections and data flow"] := by
  decide

/-- C4 (amended): with no features, output format `single` and the task
manager disabled, the step generator returns the trigger-creation step
followed by exactly the three fixed closing steps (error handling,
documentation, testing), with no per-feature step. -/
theorem completeSteps_single_empty_steps :
    CompleteWorkflow.generateImplementationSteps [] "single" false =
      ["Create main workflow with appropriate trigger",
       "Implement error handling and logging",
       "Add documentation via Sticky Notes",
       "Test all connections and data flow"] := by
  decide

/-- C7: prompt assembly is deterministic — two calls of the prompt builder
on identical inputs produce identical text. -/
theorem buildSystemPrompt_deterministic (a b : CompleteWorkflow.PromptContext)
    (h : a = b) :
    CompleteWorkflow.buildSystemPrompt a = CompleteWorkflow.buildSystemPrompt b := by
  rw [h]

/-- Witness for C7 at a concrete prompt context. -/
theorem buildSystemPrompt_deterministic_witness :
    CompleteWorkflow.buildSystemPrompt
      { description := "send a slack message",
        features := ["slack"],
        relevantWorkflows := [],
        relevantNodes := [],
        demoExamples := [],
        taskManagerExamples := [],
        useTaskManager := false,
        outputFormat := "single",
        complexity := "intermediate",
        claudeMdContent := "project notes" } =
    CompleteWorkflow.buildSystemPrompt
      { description := "send a slack message",
        features := ["slack"],
        relevantWorkflows := [],
        relevantNodes := [],
        demoExamples := [],
        taskManagerExamples := [],
        useTaskManager := false,
        outputFormat := "single",
        complexity := "intermediate",
        claudeMdContent := "project notes" } :=
  buildSystemPrompt_deterministic _ _ rfl

/-- Off the `Object.prototype` names, the JS property read followed by
`|| default` is exactly the own-property lookup with a default (object
values in the maps are never the empty string). -/
theorem jsGetProp_or_off_proto (own : List (String × String)) (k : String)
    (hk : k ∉ objectProtoProps) (hvals : ∀ p ∈ own, p.2 ≠ "") (d : String) :
    jsOrValue (jsGetProp own k) d = JSValue.str ((own.lookup k).getD d) := by
  cases hl : own.lookup k with
  | none => simp [jsGetProp, jsOrValue, hl, hk]
  | some v =>
    have hv : v ≠ "" := by
      rw [List.lookup_eq_some_iff] at hl
      obtain ⟨l₁, l₂, rfl, _⟩ := hl
      exact hvals (k, v) (by simp)
    simp [jsGetProp, jsOrValue, hl, hv]

/-- For keys that are not `Object.prototype` names, the JavaScript-level
trigger resolver agrees with its own-property abstraction. -/
theorem getTriggerNodeTypeJS_off_proto (s : String)
    (h : s ∉ objectProtoProps) :
    GenerateWorkflow.getTriggerNodeTypeJS s =
      JSValue.str (GenerateWorkflow.getTriggerNodeType s) := by
  simp only [GenerateWorkflow.getTriggerNodeTypeJS,
    GenerateWorkflow.getTriggerNodeType]
  exact jsGetProp_or_off_proto _ _ h (by decide) _

/-- For lowercased keys that are not `Object.prototype` names, the
JavaScript-level integration resolver agrees with its own-property
abstraction. -/
theorem getIntegrationNodeTypeJS_off_proto (s : String)
    (h : jsToLower s ∉ objectProtoProps) :
    GenerateWorkflow.getIntegrationNodeTypeJS s =
      JSValue.str (GenerateWorkflow.getIntegrationNodeType s) := by
  simp only [GenerateWorkflow.getIntegrationNodeTypeJS,
    GenerateWorkflow.getIntegrationNodeType]
  exact jsGetProp_or_off_proto _ _ h (by decide) _

/-- C5 counterexample: the unknown keys "toString" and "constructor" do
not resolve to the documented fallbacks — the plain-object read returns
the inherited `Object.prototype` member instead, because `||` never sees a
falsy value. -/
theorem resolvers_prototype_leak :
    GenerateWorkflow.getTriggerNodeTypeJS "toString" =
      JSValue.protoMember "toString" ∧
    GenerateWorkflow.getTriggerNodeTypeJS "toString" ≠
      JSValue.str "n8n-nodes-base.manualTrigger" ∧
    GenerateWorkflow.getIntegrationNodeTypeJS "constructor" =
      JSValue.protoMember "constructor" ∧
    GenerateWorkflow.getIntegrationNodeTypeJS "constructor" ≠
      JSValue.str "n8n-nodes-base.httpRequest" := by
  decide

/-- C5 (amended): the resolvers never raise; a key outside the trigger map
that is not an `Object.prototype` name resolves to the manual-trigger
fallback, an ASCII key whose lowercasing is outside the integration map
and not an `Object.prototype` name resolves to the HTTP-request fallback
(prototype-named keys instead return the inherited member, as the
counterexample shows); the integration resolver is case-insensitive on
ASCII inputs (its result depends only on the lowercased key), while the
trigger resolver matches exactly (the "Webhook" spelling falls back while
"webhook" hits the map). -/
theorem resolvers_fallback_off_prototype (s t : String) :
    (s ∉ ["webhook", "schedule", "manual", "chat"] →
     s ∉ objectProtoProps →
      GenerateWorkflow.getTriggerNodeTypeJS s =
        JSValue.str "n8n-nodes-base.manualTrigger") ∧
    (isAsciiString s = true →
     jsToLower s ∉ ["slack", "telegram", "email", "openai", "supabase", "http"] →
     jsToLower s ∉ objectProtoProps →
      GenerateWorkflow.getIntegrationNodeTypeJS s =
        JSValue.str "n8n-nodes-base.httpRequest") ∧
    (isAsciiString s = true → isAsciiString t = true →
     jsToLower s = jsToLower t →
      GenerateWorkflow.getIntegrationNodeTypeJS s =
        GenerateWorkflow.getIntegrationNodeTypeJS t) ∧
    GenerateWorkflow.getTriggerNodeTypeJS "Webhook" =
      JSValue.str "n8n-nodes-base.manualTrigger" ∧
    GenerateWorkflow.getTriggerNodeTypeJS "webhook" =
      JSValue.str "n8n-nodes-base.webhook" := by
  refine ⟨?_, ?_, ?_, by decide, by decide⟩
  · intro hs hp
    rw [getTriggerNodeTypeJS_off_proto s hp]
    simp only [List.mem_cons, List.not_mem_nil, or_false, not_or] at hs
    obtain ⟨h1, h2, h3, h4⟩ := hs
    have hnone : ([("webhook", "n8n-nodes-base.webhook"),
        ("schedule", "n8n-nodes-base.scheduleTrigger"),
        ("manual", "n8n-nodes-base.manualTrigger"),
        ("chat", "@n8n/n8n-nodes-langchain.chatTrigger")] :
          List (String × String)).lookup s = none := by
      rw [List.lookup_eq_none_iff]
      intro p hp
      simp only [List.mem_cons, List.not_mem_nil, or_false] at hp
      rcases hp with rfl | rfl | rfl | rfl <;> simpa [bne_iff_ne] using ‹_›
    simp [GenerateWorkflow.getTriggerNodeType, hnone]
  · intro _hascii hs hp
    rw [getIntegrationNodeTypeJS_off_proto s hp]
    simp only [List.mem_cons, List.not_mem_nil, or_false, not_or] at hs
    obtain ⟨h1, h2, h3, h4, h5, h6⟩ := hs
    have hnone : ([("slack", "n8n-nodes-base.slack"),
        ("telegram", "n8n-nodes-base.telegram"),
        ("email", "n8n-nodes-base.emailSend"),
        ("openai", "@n8n/n8n-nodes-langchain.lmChatOpenAi"),
        ("supabase", "@n8n/n8n-nodes-langchain.supabaseVectorStore"),
        ("http", "n8n-nodes-base.httpRequest")] :
          List (String × String)).lookup (jsToLower s) = none := by
      rw [List.lookup_eq_none_iff]
      intro p hp
      simp only [List.mem_cons, List.not_mem_nil, or_false] at hp
      rcases hp with rfl | rfl | rfl | rfl | rfl | rfl <;>
        simpa [bne_iff_ne] using ‹_›
    simp [GenerateWorkflow.getIntegrationNodeType, hnone]
  · intro _ha _hb h
    simp only [GenerateWorkflow.getIntegrationNodeTypeJS]
    rw [h]

/-- Witness for the amended C5: the unknown non-prototype key "Webhook"
falls back for both resolvers, and "SLACK" resolves like "slack". -/
theorem resolvers_fallback_off_prototype_witness :
    GenerateWorkflow.getTriggerNodeTypeJS "Webhook" =
      JSValue.str "n8n-nodes-base.manualTrigger" ∧
    GenerateWorkflow.getIntegrationNodeTypeJS "Webhook" =
      JSValue.str "n8n-nodes-base.httpRequest" ∧
    GenerateWorkflow.getIntegrationNodeTypeJS "SLACK" =
      GenerateWorkflow.getIntegrationNodeTypeJS "slack" := by
  obtain ⟨p1, p2, _, _, _⟩ := resolvers_fallback_off_prototype "Webhook" "t"
  obtain ⟨_, _, p3, _, _⟩ := resolvers_fallback_off_prototype "SLACK" "slack"
  exact ⟨p1 (by decide) (by decide), p2 (by decide) (by decide) (by decide),
    p3 (by decide) (by decide) (by decide)⟩

/-- C6: the suggested approach is chosen by first-match precedence:
`microservice` wins over everything, then `ai_agent`, then `rag`, then the
top workflow match, then the generic fallback — whichever condition matches
first fully determines the returned string. -/
theorem suggestApproach_first_match (insights : GetInsights.Insights)
    (w : GetInsights.WorkflowMatch) :
    ("microservice" ∈ insights.recommended_patterns.getD [] →
      GetInsights.suggestApproach insights =
        "Use a microservice pattern with webhook triggers for modular design.") ∧
    ("microservice" ∉ insights.recommended_patterns.getD [] →
     "ai_agent" ∈ insights.recommended_patterns.getD [] →
      GetInsights.suggestApproach insights =
        "Implement an AI agent with tool integration for intelligent automation.") ∧
    ("microservice" ∉ insights.recommended_patterns.getD [] →
     "ai_agent" ∉ insights.recommended_patterns.getD [] →
     "rag" ∈ insights.recommended_patterns.getD [] →
      GetInsights.suggestApproach insights =
        "Use RAG pattern for context-aware responses with vector database integration.") ∧
    ("microservice" ∉ insights.recommended_patterns.getD [] →
     "ai_agent" ∉ insights.recommended_patterns.getD [] →
     "rag" ∉ insights.recommended_patterns.getD [] →
     (insights.workflow_matches.getD []).head? = some w →
      GetInsights.suggestApproach insights =
        "Consider adapting the \"" ++ w.name ++ "\" workflow as a starting point.") ∧
    ("microservice" ∉ insights.recommended_patterns.getD [] →
     "ai_agent" ∉ insights.recommended_patterns.getD [] →
     "rag" ∉ insights.recommended_patterns.getD [] →
     (insights.workflow_matches.getD []).head? = none →
      GetInsights.suggestApproach insights =
        "Start with a simple webhook trigger and build incrementally.") := by
  refine ⟨?_, ?_, ?_, ?_, ?_⟩ <;>
    intros <;>
    simp [GetInsights.suggestApproach, *]

/-- Witness for C6: when all three patterns are present simultaneously and
a workflow match exists, exactly the first check (microservice) decides. -/
theorem suggestApproach_first_match_witness :
    GetInsights.suggestApproach
      { workflow_matches := some [{ name := "W" }],
        node_suggestions := none,
        recommended_patterns := some ["rag", "ai_agent", "microservice"],
        complexity_estimate := none } =
      "Use a microservice pattern with webhook triggers for modular design." :=
  (suggestApproach_first_match
    { workflow_matches := some [{ name := "W" }],
      node_suggestions := none,
      recommended_patterns := some ["rag", "ai_agent", "microservice"],
      complexity_estimate := none } { name := "W" }).1 (by decide)

/-- C8: for insights with advanced complexity, no ai_agent pattern and no
database-typed node suggestion, the considerations list is exactly the
advanced-complexity note followed by the two always-present notes. -/
theorem getConsiderations_advanced_only (insights : GetInsights.Insights)
    (h1 : insights.complexity_estimate = some "advanced")
    (h2 : "ai_agent" ∉ insights.recommended_patterns.getD [])
    (h3 : (insights.node_suggestions.getD []).any
        (fun n => optIncludes n.type "database") = false) :
    GetInsights.getConsiderations insights =
      ["This is a complex workflow that may require multiple sub-workflows",
       "Consider error handling and retry logic for reliability",
       "Implement logging for debugging and monitoring"] := by
  simp [GetInsights.getConsiderations, h1, h2, h3]

/-- Witness for C8 at a concrete advanced-complexity insights value. -/
theorem getConsiderations_advanced_only_witness :
    ({ workflow_matches := none, node_suggestions := none,
       recommended_patterns := none,
       complexity_estimate := some "advanced" } :
        GetInsights.Insights).complexity_estimate = some "advanced" ∧
    GetInsights.getConsiderations
      { workflow_matches := none, node_suggestions := none,
        recommended_patterns := none,
        complexity_estimate := some "advanced" } =
      ["This is a complex workflow that may require multiple sub-workflows",
       "Consider error handling and retry logic for reliability",
       "Implement logging for debugging and monitoring"] :=
  ⟨rfl, getConsiderations_advanced_only _ rfl (by decide) (by decide)⟩

/-- Membership in a conditional singleton forces equality with its element. -/
theorem mem_ite_singleton {x y : String} {b : Prop} [Decidable b]
    (h : x ∈ (if b then [y] else [])) : x = y := by
  split at h
  · simpa using h
  · simp at h

/-- A per-node component entry (ending in " node") can never collide with
the trigger-absence entry (ending in "trigger"). -/
theorem name_node_ne_trigger_component (s : String) :
    s ++ " node" ≠ "Webhook or manual trigger" := by
  intro h
  have hd : s.data ++ (" node" : String).data
      = ("Webhook or manual trigger" : String).data := by
    simpa using congrArg String.data h
  have hlast : (s.data ++ (" node" : String).data).getLast? = some 'e' := by
    rw [List.getLast?_append]
    rfl
  rw [hd] at hlast
  exact absurd hlast (by decide)

/-- C9: in the key-components list, the "Webhook or manual trigger" entry
appears exactly when no suggested node type contains "trigger" or
"webhook" (an absence check); the AI, database and messaging entries appear
on presence of their type substrings; and the per-node entries for the
first three suggested nodes form the tail of the list. -/
theorem identifyKeyComponents_shape (insights : GetInsights.Insights) :
    ("Webhook or manual trigger" ∈ GetInsights.identifyKeyComponents insights ↔
      GetInsights.hasTriggerNode (insights.node_suggestions.getD []) = false) ∧
    (GetInsights.hasAINode (insights.node_suggestions.getD []) = true →
      "AI/LLM integration" ∈ GetInsights.identifyKeyComponents insights) ∧
    (GetInsights.hasDatabaseNode (insights.node_suggestions.getD []) = true →
      "Database storage" ∈ GetInsights.identifyKeyComponents insights) ∧
    (GetInsights.hasMessagingNode (insights.node_suggestions.getD []) = true →
      "Messaging integration" ∈ GetInsights.identifyKeyComponents insights) ∧
    (((insights.node_suggestions.getD []).take 3).map
        (fun node => node.name ++ " node")) <:+
      GetInsights.identifyKeyComponents insights := by
  refine ⟨?_, ?_, ?_, ?_, ?_⟩
  · constructor
    · intro hmem
      by_contra hbc
      have hbt : GetInsights.hasTriggerNode
          (insights.node_suggestions.getD []) = true := by
        revert hbc
        cases GetInsights.hasTriggerNode (insights.node_suggestions.getD []) <;>
          simp
      rw [GetInsights.identifyKeyComponents] at hmem
      rcases List.mem_append.mp hmem with h1 | hrest
      · rcases List.mem_append.mp h1 with h1 | h1
        · rcases List.mem_append.mp h1 with h1 | h1
          · rcases List.mem_append.mp h1 with h1 | h1
            · rw [hbt] at h1
              simp at h1
            · have := mem_ite_singleton h1
              simp at this
          · have := mem_ite_singleton h1
            simp at this
        · have := mem_ite_singleton h1
          simp at this
      · obtain ⟨n, _, hn⟩ := List.mem_map.mp hrest
        exact name_node_ne_trigger_component n.name hn
    · intro hf
      simp [GetInsights.identifyKeyComponents, hf]
  · intro h
    simp [GetInsights.identifyKeyComponents, h]
  · intro h
    simp [GetInsights.identifyKeyComponents, h]
  · intro h
    simp [GetInsights.identifyKeyComponents, h]
  · simp only [GetInsights.identifyKeyComponents]
    exact List.suffix_append _ _

/-- Witness for C9: with no suggested nodes the trigger-absence entry is
present; with an AI-typed suggestion the AI entry is present and the
per-node tail is a suffix. -/
theorem identifyKeyComponents_shape_witness :
    "Webhook or manual trigger" ∈ GetInsights.identifyKeyComponents
      { workflow_matches := none, node_suggestions := none,
        recommended_patterns := none, complexity_estimate := none } ∧
    "AI/LLM integration" ∈ GetInsights.identifyKeyComponents
      { workflow_matches := none,
        node_suggestions := some [{ type := some "openai", name := "OpenAI" }],
        recommended_patterns := none, complexity_estimate := none } :=
  ⟨(identifyKeyComponents_shape
      { workflow_matches := none, node_suggestions := none,
        recommended_patterns := none,
        complexity_estimate := none }).1.mpr (by decide),
   (identifyKeyComponents_shape
      { workflow_matches := none,
        node_suggestions := some [{ type := some "openai", name := "OpenAI" }],
        recommended_patterns := none,
        complexity_estimate := none }).2.1 (by decide)⟩

/-- The step list of generate-workflow.ts, fully evaluated in both
branches of the AI-agent check. -/
theorem gwImplementationSteps_eq (struct : GenerateWorkflow.Workflow) :
    GenerateWorkflow.generateImplementationSteps struct =
      if struct.nodes.any (fun n => jsIncludes n.type "agent") then
        ["1. Create a new workflow in n8n",
         "2. Add the trigger node and configure its settings",
         "3. Configure the AI agent with appropriate model and tools",
         "4. Connect all nodes as shown in the structure",
         "5. Configure credentials for each integration",
         "6. Test the workflow with sample data",
         "7. Add error handling and logging nodes"]
      else
        ["1. Create a new workflow in n8n",
         "2. Add the trigger node and configure its settings",
         "3. Connect all nodes as shown in the structure",
         "4. Configure credentials for each integration",
         "5. Test the workflow with sample data",
         "6. Add error handling and logging nodes"] := by
  rw [GenerateWorkflow.generateImplementationSteps]
  cases hb : struct.nodes.any (fun n => jsIncludes n.type "agent") <;> simp <;>
    decide

/-- C10: the step list of the generate-workflow handler is consecutively
numbered — for every workflow structure, the k-th step starts with
"k. " (counting from 1), both in the 7-step branch with the AI-agent step
and in the 6-step branch without it. -/
theorem gwImplementationSteps_numbered (struct : GenerateWorkflow.Workflow)
    (k : Nat)
    (h : k < (GenerateWorkflow.generateImplementationSteps struct).length) :
    ((Nat.repr (k + 1) ++ ". ").data).isPrefixOf
      ((GenerateWorkflow.generateImplementationSteps struct).get
        ⟨k, h⟩).data = true := by
  have he := gwImplementationSteps_eq struct
  rcases hb : struct.nodes.any (fun n => jsIncludes n.type "agent") with _ | _ <;>
    rw [hb] at he
  · rw [if_neg (by simp)] at he
    revert h
    rw [he]
    intro h
    have hlen : k < 6 := by simpa using h
    interval_cases k <;> rfl
  · rw [if_pos (by simp)] at he
    revert h
    rw [he]
    intro h
    have hlen : k < 7 := by simpa using h
    interval_cases k <;> rfl

/-- Witness for C10 at the first step of an agent-free workflow. -/
theorem gwImplementationSteps_numbered_witness :
    0 < (GenerateWorkflow.generateImplementationSteps
      { nodes := [], connections := [],
        settings := { executionOrder := "v1" } }).length ∧
    ((Nat.repr (0 + 1) ++ ". ").data).isPrefixOf
      ((GenerateWorkflow.generateImplementationSteps
        { nodes := [], connections := [],
          settings := { executionOrder := "v1" } }).get
        ⟨0, by decide⟩).data = true :=
  ⟨by decide,
   gwImplementationSteps_numbered
     { nodes := [], connections := [],
       settings := { executionOrder := "v1" } } 0 (by decide)⟩

/-- Witness for C2 at a concrete input: one slack integration gives the
chain trigger_1 → node_2, with the unique-trigger count and the
incoming-edge characterization at position 1. -/
theorem generateWorkflow_single_path_witness :
    (GenerateWorkflow.workflowIds
      (GenerateWorkflow.generateWorkflowStructure "x"
        { trigger := none, integrations := some ["slack"] }
        { patterns := none, suggested_nodes := none })).count "trigger_1" = 1 ∧
    (GenerateWorkflow.generateWorkflowStructure "x"
        { trigger := none, integrations := some ["slack"] }
        { patterns := none, suggested_nodes := none }).connections.filter
        (fun e => e.2.main.any (fun g => g.any (fun r =>
          r.node == (GenerateWorkflow.workflowIds
            (GenerateWorkflow.generateWorkflowStructure "x"
              { trigger := none, integrations := some ["slack"] }
              { patterns := none, suggested_nodes := none })).get
            ⟨1, by decide⟩)))
      = [((GenerateWorkflow.workflowIds
            (GenerateWorkflow.generateWorkflowStructure "x"
              { trigger := none, integrations := some ["slack"] }
              { patterns := none, suggested_nodes := none })).get
            ⟨0, by decide⟩,
          GenerateWorkflow.mkConnVal
            ((GenerateWorkflow.workflowIds
              (GenerateWorkflow.generateWorkflowStructure "x"
                { trigger := none, integrations := some ["slack"] }
                { patterns := none, suggested_nodes := none })).get
              ⟨1, by decide⟩))] := by
  obtain ⟨p1, _, _, _, _, p6⟩ :=
    GenerateWorkflow.generateWorkflow_single_path "x"
      { trigger := none, integrations := some ["slack"] }
      { patterns := none, suggested_nodes := none }
  exact ⟨p1, p6 0 (by decide)⟩
